import Mathlib

/-!
Verification of the video-automation workflow core.

This file gives a shallow embedding of the repository's workflow
execution core and settles the specification's claims against it.
Embedded source files:
  - `ideas.py`             (idea catalog and round-robin rotation)
  - `api_clients.py`       (`KieAPI.wait_for_completion` polling loop)
  - `enhanced-system/database.py`  (videos / workflow_runs tables)
  - `enhanced-system/workflow.py`  (`WorkflowEngine.run_workflow`)
  - `workflow_manager.py`  (execution log, as events)
  - `enhanced-system/workflow_executor.py`
      (`WorkflowExecutor.execute_workflow` / `_execute_video_creation`)

External HTTP collaborators (OpenAI, Kie, Blotato) are modelled as
oracles: an environment record supplies the outcome of each outbound
call.  Python exceptions are modelled with `Except`; Python dicts that
cross the JSON boundary are modelled with an explicit `Json` type and a
fuel-based executable model of `json.loads`.
-/

/-- JSON values, the image of Python's `json.loads`. -/
inductive Json where
  | null
  | bool (b : Bool)
  | num (n : Int)
  | str (s : String)
  | arr (xs : List Json)
  | obj (fs : List (String × Json))
deriving Repr

/-- Dictionary lookup on a JSON object's field list. -/
def jlookup : List (String × Json) → String → Option Json
  | [], _ => none
  | (k, v) :: fs, key => if k = key then some v else jlookup fs key

/-- Python `dict.get(key, default)`: raises (error) when the receiver is
not a dict, otherwise returns the field or the default. -/
def jget (j : Json) (key : String) (d : Json) : Except String Json :=
  match j with
  | .obj fs => .ok ((jlookup fs key).getD d)
  | _ => .error "AttributeError"

/-- Whether a JSON value is a dict. -/
def Json.isObj : Json → Bool
  | .obj _ => true
  | _ => false

/- ### A small executable model of `json.loads` -/

/-- Skip JSON whitespace. -/
def skipWs : List Char → List Char
  | c :: cs =>
    if c = ' ' ∨ c = '\t' ∨ c = '\n' ∨ c = '\r' then skipWs cs else c :: cs
  | [] => []

/-- Decode a string-escape character (the common JSON escapes). -/
def escChar (e : Char) : Option Char :=
  if e = '\"' then some '\"'
  else if e = '\\' then some '\\'
  else if e = '/' then some '/'
  else if e = 'n' then some '\n'
  else if e = 't' then some '\t'
  else if e = 'r' then some '\r'
  else if e = 'b' then some (Char.ofNat 8)
  else if e = 'f' then some (Char.ofNat 12)
  else none

/-- Parse the body of a JSON string after the opening quote.  Fuelled so
that the definition is structurally recursive and evaluable. -/
def parseStrBody : Nat → List Char → String → Option (String × List Char)
  | 0, _, _ => none
  | _ + 1, [], _ => none
  | fuel + 1, c :: cs, acc =>
    if c = '\"' then some (acc, cs)
    else if c = '\\' then
      match cs with
      | [] => none
      | e :: cs' =>
        match escChar e with
        | some ec => parseStrBody fuel cs' (acc.push ec)
        | none => none
    else parseStrBody fuel cs (acc.push c)

/-- Greedily read decimal digits. -/
def readDigits : List Char → String → String × List Char
  | c :: cs, acc =>
    if c.isDigit then readDigits cs (acc.push c) else (acc, c :: cs)
  | [], acc => (acc, [])

mutual

/-- Parse one JSON value (objects, arrays, strings, integers, literals). -/
def parseVal : Nat → List Char → Option (Json × List Char)
  | 0, _ => none
  | fuel + 1, cs =>
    match skipWs cs with
    | [] => none
    | c :: rest =>
      if c = Char.ofNat 123 then
        match skipWs rest with
        | c2 :: rest2 =>
          if c2 = Char.ofNat 125 then some (.obj [], rest2)
          else
            match parseMembers fuel (c2 :: rest2) with
            | some (fs, r) => some (.obj fs, r)
            | none => none
        | [] => none
      else if c = '[' then
        match skipWs rest with
        | c2 :: rest2 =>
          if c2 = ']' then some (.arr [], rest2)
          else
            match parseItems fuel (c2 :: rest2) with
            | some (xs, r) => some (.arr xs, r)
            | none => none
        | [] => none
      else if c = '\"' then
        match parseStrBody (rest.length + 1) rest "" with
        | some (s, r) => some (.str s, r)
        | none => none
      else if c = 't' then
        if rest.take 3 = ['r', 'u', 'e'] then some (.bool true, rest.drop 3)
        else none
      else if c = 'f' then
        if rest.take 4 = ['a', 'l', 's', 'e'] then some (.bool false, rest.drop 4)
        else none
      else if c = 'n' then
        if rest.take 3 = ['u', 'l', 'l'] then some (.null, rest.drop 3)
        else none
      else if c = '-' then
        match readDigits rest "" with
        | ("", _) => none
        | (ds, r) => some (.num (-(Int.ofNat (ds.toNat?.getD 0))), r)
      else if c.isDigit then
        match readDigits (c :: rest) "" with
        | ("", _) => none
        | (ds, r) => some (.num (Int.ofNat (ds.toNat?.getD 0)), r)
      else none

/-- Parse comma-separated array items up to the closing bracket. -/
def parseItems : Nat → List Char → Option (List Json × List Char)
  | 0, _ => none
  | fuel + 1, cs =>
    match parseVal fuel cs with
    | none => none
    | some (v, rest) =>
      match skipWs rest with
      | ',' :: r2 =>
        match parseItems fuel r2 with
        | some (xs, r3) => some (v :: xs, r3)
        | none => none
      | ']' :: r2 => some ([v], r2)
      | _ => none

/-- Parse comma-separated object members up to the closing brace. -/
def parseMembers : Nat → List Char → Option (List (String × Json) × List Char)
  | 0, _ => none
  | fuel + 1, cs =>
    match skipWs cs with
    | '\"' :: rest =>
      match parseStrBody (rest.length + 1) rest "" with
      | none => none
      | some (key, r1) =>
        match skipWs r1 with
        | ':' :: r2 =>
          match parseVal fuel r2 with
          | none => none
          | some (v, r3) =>
            match skipWs r3 with
            | ',' :: r4 =>
              match parseMembers fuel r4 with
              | some (fs, r5) => some ((key, v) :: fs, r5)
              | none => none
            | c :: r4 =>
              if c = Char.ofNat 125 then some ([(key, v)], r4) else none
            | [] => none
        | _ => none
    | _ => none

end

/-- Model of Python's `json.loads`: `none` is a `JSONDecodeError`. -/
def jsonLoads (s : String) : Option Json :=
  match parseVal (2 * s.length + 2) s.data with
  | some (j, rest) => if skipWs rest = [] then some j else none
  | none => none

example : jsonLoads "\x7b\"resultUrls\":[\"http://x/video.mp4\"]\x7d"
    = some (.obj [("resultUrls", .arr [.str "http://x/video.mp4"])]) := by rfl

example : jsonLoads "not json at all" = none := by rfl

/- ### `KieAPI.wait_for_completion` (api_clients.py) -/

/-- The result payload of `resultJson`: either still a JSON-encoded
string or already a decoded value (the `isinstance(..., str)` split in
the source). -/
inductive ResultJson where
  | jstr (s : String)
  | jval (j : Json)

/-- The `data` part of a poll response from `KieAPI.get_task_status`. -/
structure PollData where
  status : String
  resultJson : ResultJson

/-- Errors `wait_for_completion` can raise.  `genFailure` is the
`Exception("Video generation failed: ...")`, `timeoutErr` the
`TimeoutError`; `raised` propagates an exception from the poll call
itself. -/
inductive KieError where
  | raised (e : String)
  | genFailure (pd : PollData)
  | timeoutErr (maxWait : Nat)

/-- The polling loop of `wait_for_completion`: while elapsed time is
below `maxWait`, poll; return on SUCCESS, raise on FAILED/ERROR, else
sleep `checkInterval` and retry.  The fuel argument only makes the
recursion structural; with `maxWait + 1` fuel and a positive interval it
is never exhausted (the Python loop diverges on a zero interval). -/
def waitLoop (poll : Nat → Except String PollData) (maxWait checkInterval : Nat) :
    Nat → Nat → Nat → Except KieError PollData
  | 0, _, _ => .error (.timeoutErr maxWait)
  | fuel + 1, t, k =>
    if t < maxWait then
      match poll k with
      | .error e => .error (.raised e)
      | .ok pd =>
        if pd.status = "SUCCESS" then .ok pd
        else if pd.status = "FAILED" ∨ pd.status = "ERROR" then
          .error (.genFailure pd)
        else waitLoop poll maxWait checkInterval fuel (t + checkInterval) (k + 1)
    else .error (.timeoutErr maxWait)

/-- `KieAPI.wait_for_completion(task_id, max_wait, check_interval)`,
as a function of the sequence of poll outcomes. -/
def wait_for_completion (poll : Nat → Except String PollData)
    (maxWait : Nat := 600) (checkInterval : Nat := 10) : Except KieError PollData :=
  waitLoop poll maxWait checkInterval (maxWait + 1) 0 0

/-- The error message string attached to a caught `KieError`
(`str(e)` in the outer `except` block). -/
def kieMsg : KieError → String
  | .raised e => e
  | .genFailure _ => "Video generation failed"
  | .timeoutErr m => "Video generation timed out after " ++ toString m ++ " seconds"

/- ### Result-URL extraction (workflow.py lines 88-93 and
workflow_executor.py lines 137-141) -/

/-- Python subscription `v[0]` on the value found under `resultUrls`. -/
def firstOf : Json → Except String Json
  | .arr (x :: _) => .ok x
  | .arr [] => .error "IndexError"
  | .str s => if s.isEmpty then .error "IndexError" else .ok (.str (s.take 1))
  | _ => .error "TypeError"

/-- Python `j['resultUrls'][0]`. -/
def resultUrlsFirst (j : Json) : Except String Json :=
  match j with
  | .obj fs =>
    match jlookup fs "resultUrls" with
    | some v => firstOf v
    | none => .error "KeyError"
  | _ => .error "TypeError"

/-- The source's extraction of `video_url` from `resultJson`: if it is a
string, `json.loads` it first; then take `['resultUrls'][0]`. -/
def extract_video_url (rj : ResultJson) : Except String Json :=
  match rj with
  | .jstr s =>
    match jsonLoads s with
    | some j => resultUrlsFirst j
    | none => .error "JSONDecodeError"
  | .jval j => resultUrlsFirst j

example :
    extract_video_url (.jstr "\x7b\"resultUrls\":[\"http://x/video.mp4\"]\x7d")
      = .ok (.str "http://x/video.mp4") := by rfl

/- ### Idea catalog (ideas.py) -/

/-- One record of the idea bank. -/
structure Idea where
  slug : String
  language : String
  coreHook : String
  settingHints : String
  coreCharacters : String
  coreAction : String
  safetyConstraints : String
  styleTags : List String
deriving DecidableEq, Repr

/-- The `IDEAS` catalog of ideas.py. -/
def IDEAS : List Idea := [
  { slug := "baby-goat-happy-hops", language := "en",
    coreHook := "A newborn baby goat does tiny excited hops around a camera placed on the grass.",
    settingHints := "Small farm field at golden hour.",
    coreCharacters := "One tiny newborn goat kid.",
    coreAction := "Goat hops in energetic, clumsy bursts around the camera, occasionally sliding or stumbling cutely.",
    safetyConstraints := "Gentle terrain with no obstacles.",
    styleTags := ["goat", "baby-animal", "nature", "playful", "viral"] },
  { slug := "baby-husky-mimic-sounds", language := "en",
    coreHook := "A baby babbles, and a husky puppy tries to mimic the baby's sounds.",
    settingHints := "Indoor nursery with warm window light.",
    coreCharacters := "One baby sitting, one husky puppy facing them.",
    coreAction := "Baby babbles. Husky pup responds with tiny attempts at howling, tilting its head in confusion.",
    safetyConstraints := "Puppy must be gentle and stable.",
    styleTags := ["baby", "husky", "talking", "cute", "sound-mimic"] },
  { slug := "baby-elephant-curious-trunk", language := "en",
    coreHook := "A baby elephant gently explores a camera lens with its tiny trunk.",
    settingHints := "Sanctuary environment with soft dust and sunlight.",
    coreCharacters := "One young baby elephant.",
    coreAction := "Elephant taps and explores the camera with its trunk, then sneezes a tiny dust puff.",
    safetyConstraints := "Elephant must act gentle. No dangerous trunk swings.",
    styleTags := ["elephant", "baby-animal", "nature", "viral", "cute"] },
  { slug := "baby-kitten-soft-paws", language := "en",
    coreHook := "A tiny kitten kneads on the baby's blanket, mesmerising the baby.",
    settingHints := "Indoor blanket scene with close smartphone angle.",
    coreCharacters := "One baby lying on back, one kitten near feet.",
    coreAction := "Kitten kneads the blanket gently. Baby reaches out curiously.",
    safetyConstraints := "Kitten must be gentle. No claws extended.",
    styleTags := ["baby", "kitten", "kneading", "adorable", "viral"] },
  { slug := "baby-sloth-slow-hug", language := "en",
    coreHook := "A baby sloth slowly crawls toward the camera and hugs it.",
    settingHints := "Rescue center, natural wood branches, soft lighting.",
    coreCharacters := "One baby sloth.",
    coreAction := "Sloth crawls slowly, then wraps its arms around the camera with an innocent expression.",
    safetyConstraints := "Sloth kept low and safe.",
    styleTags := ["sloth", "baby-animal", "hug", "adorable"] },
  { slug := "fawn-curious-head-tilt", language := "en",
    coreHook := "A newborn fawn hears a soft sound and tilts its head repeatedly.",
    settingHints := "Forest edge or sanctuary meadow.",
    coreCharacters := "One newborn fawn.",
    coreAction := "Fawn tilts head slowly left and right, then steps forward shyly.",
    safetyConstraints := "Soft terrain, calm environment.",
    styleTags := ["fawn", "baby-animal", "cute", "nature"] },
  { slug := "baby-penguin-tiny-waddle", language := "en",
    coreHook := "A baby penguin waddles toward the camera and slips gently on its belly.",
    settingHints := "Indoor cool habitat with soft ice or snow texture.",
    coreCharacters := "One fluffy penguin chick.",
    coreAction := "Penguin waddles, slips, slides forward, then looks proud.",
    safetyConstraints := "No sharp ice. Safe ground.",
    styleTags := ["penguin", "cute", "baby-animal", "slip", "viral"] },
  { slug := "hedgehog-tiny-sniff", language := "en",
    coreHook := "A baby hedgehog sniffs the camera lens repeatedly, twitching its tiny nose.",
    settingHints := "Soft wooden table or blanket.",
    coreCharacters := "One very small hedgehog.",
    coreAction := "Hedgehog sniffs and wiggles toward the lens, then curls into a tiny ball.",
    safetyConstraints := "Safe padded surface.",
    styleTags := ["hedgehog", "cute", "micro", "sniff", "viral"] },
  { slug := "baby-lab-puppy-tug", language := "en",
    coreHook := "A baby and a Labrador puppy gently tug on opposite sides of a soft cloth.",
    settingHints := "Living room play mat with natural window light.",
    coreCharacters := "One baby, one lab puppy.",
    coreAction := "Baby pulls cloth. Puppy pulls the other side in tiny, playful motions.",
    safetyConstraints := "No rough tugging. Baby must remain stable.",
    styleTags := ["baby", "puppy", "lab", "playful"] },
  { slug := "baby-chimp-curious-hands", language := "en",
    coreHook := "A baby chimp explores the camera gently with its hands.",
    settingHints := "Sanctuary habitat with soft leaves.",
    coreCharacters := "One baby chimp.",
    coreAction := "Chimp touches lens with curiosity, then mimics the camera operator.",
    safetyConstraints := "Chimp must remain gentle, slow, safe.",
    styleTags := ["chimp", "baby-animal", "cute"] }
]

/-- `get_next_idea(current_index)` of ideas.py: round-robin retrieval
with wraparound, returning the idea and the advanced index. -/
def get_next_idea (current_index : Nat := 0) : Idea × Nat :=
  let index := current_index % IDEAS.length
  (IDEAS.get ⟨index, Nat.mod_lt _ (by decide)⟩, (index + 1) % IDEAS.length)

example : (get_next_idea 0).2 = 1 := by rfl
example : (get_next_idea 9).2 = 0 := by rfl
example : (get_next_idea 3).1.slug = "baby-kitten-soft-paws" := by rfl

/- ### Database model (enhanced-system/database.py) -/

/-- The parsed script dict returned by `OpenAIClient.generate_script`
(the fields the JSON response must carry). -/
structure Script where
  title : String
  description : String
  prompt : String
  hashtags : String

/-- A row of the `videos` table.  `add_video` inserts with
status `'created'` and the posted flags default to false. -/
structure VideoRow where
  id : Nat
  idea_data : Idea
  script_data : Option Script
  sora_task_id : Option String
  video_url : Option Json
  status : String
  posted_tiktok : Bool
  posted_instagram : Bool
  posted_youtube : Bool
  error : Option String

/-- A row of the `workflow_runs` table; `completed_set` models whether
`completed_at` has been written. -/
structure RunRow where
  id : Nat
  completed_set : Bool
  status : String
  video_id : Option Nat
  error : Option String

/-- The persistent store: the two tables the engine touches. -/
structure DB where
  videos : List VideoRow
  runs : List RunRow

/-- The next sqlite AUTOINCREMENT row id: one more than the largest id
in use. -/
def nextId (ids : List Nat) : Nat := ids.foldr max 0 + 1

/-- One field assignment of a `Database.update_video(**kwargs)` call. -/
inductive VUpdate where
  | sora_task_id (s : String)
  | status (s : String)
  | video_url (u : Json)
  | posted_youtube (b : Bool)
  | posted_instagram (b : Bool)
  | posted_tiktok (b : Bool)
  | error (e : String)

/-- Apply one `SET field = value` item to a row. -/
def applyVUpdate (r : VideoRow) : VUpdate → VideoRow
  | .sora_task_id s => { r with sora_task_id := some s }
  | .status s => { r with status := s }
  | .video_url u => { r with video_url := some u }
  | .posted_youtube b => { r with posted_youtube := b }
  | .posted_instagram b => { r with posted_instagram := b }
  | .posted_tiktok b => { r with posted_tiktok := b }
  | .error e => { r with error := some e }

/-- `Database.update_video(video_id, **kwargs)`: update the matching
row's fields. -/
def update_video (db : DB) (vid : Nat) (us : List VUpdate) : DB :=
  { db with videos :=
      db.videos.map (fun r => if r.id = vid then us.foldl applyVUpdate r else r) }

/-- `Database.add_video(idea, script)`: insert with status `'created'`.
Returns the updated store and `lastrowid`. -/
def add_video (db : DB) (idea : Idea) (script : Script) : DB × Nat :=
  let vid := nextId (db.videos.map VideoRow.id)
  ({ db with videos := db.videos ++
      [{ id := vid, idea_data := idea, script_data := some script,
         sora_task_id := none, video_url := none, status := "created",
         posted_tiktok := false, posted_instagram := false,
         posted_youtube := false, error := none }] }, vid)

/-- `Database.add_workflow_run()`: insert with status `'started'`.
Returns the updated store and `lastrowid`. -/
def add_workflow_run (db : DB) : DB × Nat :=
  let rid := nextId (db.runs.map RunRow.id)
  ({ db with runs := db.runs ++
      [{ id := rid, completed_set := false, status := "started",
         video_id := none, error := none }] }, rid)

/-- `Database.complete_workflow_run(run_id, status, video_id, error)`:
set `completed_at`, status, video id and error on the matching row. -/
def complete_workflow_run (db : DB) (rid : Nat) (status : String)
    (vid : Option Nat) (err : Option String) : DB :=
  { db with runs :=
      db.runs.map (fun r =>
        if r.id = rid then
          { r with completed_set := true, status := status,
                   video_id := vid, error := err }
        else r) }

/- ### Events: external calls and store writes, in program order -/

/-- Observable steps of a run: each outbound collaborator call and each
store write, recorded in the order the source performs them. -/
inductive Event where
  | callGenerateScript
  | callChat
  | callCreateVideo
  | callUpload
  | callPost (platform : String)
  | dbAddVideo (vid : Nat)
  | dbUpdateVideo (vid : Nat) (us : List VUpdate)
  | dbAddRun (rid : Nat) (status : String)
  | dbCompleteRun (rid : Nat) (status : String)
  | logExecution (wid : Nat) (status : String)

/-- The status value (if any) one `SET` item writes. -/
def statusOfUpdate : VUpdate → Option String
  | .status s => some s
  | .sora_task_id _ => none
  | .video_url _ => none
  | .posted_youtube _ => none
  | .posted_instagram _ => none
  | .posted_tiktok _ => none
  | .error _ => none

/-- The status values an event writes to video `vid`. -/
def statusesOf (vid : Nat) : Event → List String
  | .callGenerateScript => []
  | .callChat => []
  | .callCreateVideo => []
  | .callUpload => []
  | .callPost _ => []
  | .dbAddVideo v => if v = vid then ["created"] else []
  | .dbUpdateVideo v us => if v = vid then us.filterMap statusOfUpdate else []
  | .dbAddRun _ _ => []
  | .dbCompleteRun _ _ => []
  | .logExecution _ _ => []

/-- The full sequence of status values video `vid` takes over a trace. -/
def statusTrace (evs : List Event) (vid : Nat) : List String :=
  (evs.map (statusesOf vid)).flatten

/- ### `WorkflowEngine.run_workflow` (enhanced-system/workflow.py) -/

/-- Oracle for the engine's outbound calls.  An `Except.error` is the
exception the corresponding Python call would raise; for
`generate_script` this covers network errors, malformed and non-JSON
responses alike (all surface as exceptions at the call site). -/
structure EngineEnv where
  generate_script : Except String Script
  create_video : Except String String
  poll : Nat → Except String PollData
  upload_media : Except String String
  create_post : String → Except String Unit

/-- What `run_workflow` produces: the returned dict (as ordered
key/value pairs), the final store, the advanced idea index and the
event trace. -/
inductive PVal where
  | vBool (b : Bool)
  | vNat (n : Nat)
  | vStr (s : String)
  | vJson (j : Json)
  | vStrList (xs : List String)

structure EngineOut where
  result : List (String × PVal)
  db : DB
  next_index : Nat
  events : List Event

/-- The `except` block of `run_workflow`: mark the video failed when one
exists, close the workflow run as failed, return the failure dict. -/
def failRun (db : DB) (rid : Nat) (vid : Option Nat) (e : String)
    (evs : List Event) (idx : Nat) : EngineOut :=
  let (db1, evs1) : DB × List Event :=
    match vid with
    | some v =>
      (update_video db v [.status "failed", .error e],
       evs ++ [.dbUpdateVideo v [.status "failed", .error e]])
    | none => (db, evs)
  let db2 := complete_workflow_run db1 rid "failed" vid (some e)
  { result := [("success", .vBool false), ("error", .vStr e), ("trace", .vStr e)],
    db := db2, next_index := idx,
    events := evs1 ++ [.dbCompleteRun rid "failed"] }

/-- One guarded platform post of the engine (lines 106-149): the attempt
is made, and only on success is the platform's posted flag written. -/
def postPlatform (env : EngineEnv) (db : DB) (vid : Nat) (p : String)
    (flag : VUpdate) (evs : List Event) : DB × List Event :=
  match env.create_post p with
  | .ok _ =>
    (update_video db vid [flag], evs ++ [.callPost p, .dbUpdateVideo vid [flag]])
  | .error _ => (db, evs ++ [.callPost p])

/-- `WorkflowEngine.run_workflow`, step for step: open a run record, get
the next idea, generate the script, create the video record, submit the
generation job, poll to completion, extract the url, upload, post to
YouTube/Instagram/TikTok each under its own try/except, then mark
everything completed.  Any failure drops into `failRun`. -/
def run_workflow (env : EngineEnv) (db0 : DB) (idx : Nat) : EngineOut :=
  let db1 := (add_workflow_run db0).1
  let rid := (add_workflow_run db0).2
  let ev1 : List Event := [.dbAddRun rid "started"]
  let idea := (get_next_idea idx).1
  let idx' := (get_next_idea idx).2
  match env.generate_script with
  | .error e => failRun db1 rid none e (ev1 ++ [.callGenerateScript]) idx'
  | .ok script =>
    let db2 := (add_video db1 idea script).1
    let vid := (add_video db1 idea script).2
    let ev2 := ev1 ++ [.callGenerateScript, .dbAddVideo vid]
    match env.create_video with
    | .error e => failRun db2 rid (some vid) e (ev2 ++ [.callCreateVideo]) idx'
    | .ok taskId =>
      let db3 := update_video db2 vid [.sora_task_id taskId, .status "generating"]
      let ev3 := ev2 ++ [.callCreateVideo,
        .dbUpdateVideo vid [.sora_task_id taskId, .status "generating"]]
      match wait_for_completion env.poll 600 10 with
      | .error ke => failRun db3 rid (some vid) (kieMsg ke) ev3 idx'
      | .ok pd =>
        match extract_video_url pd.resultJson with
        | .error e => failRun db3 rid (some vid) e ev3 idx'
        | .ok url =>
          let db4 := update_video db3 vid [.video_url url, .status "generated"]
          let ev4 := ev3 ++ [.dbUpdateVideo vid [.video_url url, .status "generated"]]
          match env.upload_media with
          | .error e => failRun db4 rid (some vid) e (ev4 ++ [.callUpload]) idx'
          | .ok _mediaUrl =>
            let ev5 := ev4 ++ [.callUpload]
            let r5 := postPlatform env db4 vid "youtube" (.posted_youtube true) ev5
            let r6 := postPlatform env r5.1 vid "instagram" (.posted_instagram true) r5.2
            let r7 := postPlatform env r6.1 vid "tiktok" (.posted_tiktok true) r6.2
            let db8 := update_video r7.1 vid [.status "completed"]
            let db9 := complete_workflow_run db8 rid "completed" (some vid) none
            { result := [("success", .vBool true), ("video_id", .vNat vid),
                         ("video_url", .vJson url), ("title", .vStr script.title)],
              db := db9, next_index := idx',
              events := r7.2 ++ [.dbUpdateVideo vid [.status "completed"],
                                 .dbCompleteRun rid "completed"] }

/- ### `WorkflowExecutor` (enhanced-system/workflow_executor.py) -/

/-- Join rendered items with a comma separator. -/
def joinComma : List String → String
  | [] => ""
  | [x] => x
  | x :: xs => x ++ ", " ++ joinComma xs

/-- A single-quote character, used by Python `repr` of strings. -/
def squote : String := String.singleton (Char.ofNat 39)

/-- Python `repr` of a decoded JSON value (used by f-string rendering of
lists and dicts); fuelled on the value's size. -/
def pyReprFuel : Nat → Json → String
  | 0, _ => ""
  | fuel + 1, j =>
    match j with
    | .null => "None"
    | .bool true => "True"
    | .bool false => "False"
    | .num n => toString n
    | .str s => squote ++ s ++ squote
    | .arr xs => "[" ++ joinComma (xs.map (pyReprFuel fuel)) ++ "]"
    | .obj fs =>
      String.singleton (Char.ofNat 123) ++
        joinComma (fs.map (fun kv =>
          squote ++ kv.1 ++ squote ++ ": " ++ pyReprFuel fuel kv.2)) ++
        String.singleton (Char.ofNat 125)

mutual

/-- A computable size measure on JSON values (fuel for rendering). -/
def jsize : Json → Nat
  | .arr xs => jsizeList xs + 1
  | .obj fs => jsizeFields fs + 1
  | _ => 1

def jsizeList : List Json → Nat
  | [] => 0
  | x :: xs => jsize x + jsizeList xs + 1

def jsizeFields : List (String × Json) → Nat
  | [] => 0
  | (_, v) :: fs => jsize v + jsizeFields fs + 1

end

/-- Python `str()` / f-string rendering of a decoded JSON value. -/
def pyStr : Json → String
  | .str s => s
  | .null => "None"
  | .bool true => "True"
  | .bool false => "False"
  | .num n => toString n
  | j => pyReprFuel (jsize j) j

/-- An idea record as the Python dict the executor manipulates. -/
def ideaJson (i : Idea) : Json :=
  .obj [("slug", .str i.slug), ("language", .str i.language),
        ("coreHook", .str i.coreHook), ("settingHints", .str i.settingHints),
        ("coreCharacters", .str i.coreCharacters),
        ("coreAction", .str i.coreAction),
        ("safetyConstraints", .str i.safetyConstraints),
        ("styleTags", .arr (i.styleTags.map Json.str))]

/-- The configuration keys of a workflow's `config` dict that
`_execute_video_creation` reads. -/
structure WfConfig where
  idea_bank : Option String
  custom_idea : Option Json
  platforms : Option (List String)

/-- A row of the `workflows` table, as returned by
`WorkflowManager.get_workflow`. -/
structure Workflow where
  id : Nat
  name : String
  type : String
  config : WfConfig
  status : String

/-- Oracle for the executor's outbound calls. -/
structure ExecEnv where
  chat : Except String String
  create_video : Except String String
  poll : Nat → Except String PollData
  upload_media : Except String String
  create_post : String → Except String Unit

/-- The fallback script built when `json.loads(script_response)` raises
(workflow_executor.py lines 111-118). -/
def fallbackScript (resp : String) (idea : Json) : Json :=
  .obj [("title", .str ("Video about " ++
           pyStr (((jget idea "slug" (.str "content")).toOption).getD .null))),
        ("description", .str (resp.take 200)),
        ("prompt", .str resp),
        ("hashtags", .str "#cute #viral #pets")]

/-- The script the executor works with: the parsed JSON when the chat
response parses, otherwise the fallback dict. -/
def scriptFor (resp : String) (idea : Json) : Json :=
  match jsonLoads resp with
  | some j => j
  | none => fallbackScript resp idea

/-- The per-platform fan-out loop (lines 156-189): known platforms are
posted inside a try/except and appended to `posted_to` only on success;
an unrecognised platform name skips the post call but is still appended.
Also returns the call events in loop order. -/
def execFanout (env : ExecEnv) : List String → List String × List Event
  | [] => ([], [])
  | p :: ps =>
    if p = "youtube" ∨ p = "instagram" ∨ p = "tiktok" then
      match env.create_post p with
      | .ok _ =>
        let (rest, evs) := execFanout env ps
        (p :: rest, .callPost p :: evs)
      | .error _ =>
        let (rest, evs) := execFanout env ps
        (rest, .callPost p :: evs)
    else
      let (rest, evs) := execFanout env ps
      (p :: rest, evs)

/-- `WorkflowExecutor._execute_video_creation`.  Returns the result dict
or the exception that escapes to `execute_workflow`'s handler, together
with the events that happened before the outcome. -/
def executeVideoCreation (env : ExecEnv) (wf : Workflow) :
    Except String (List (String × PVal)) × List Event :=
  let idea : Json :=
    if wf.config.idea_bank = some "default" then ideaJson (get_next_idea 0).1
    else wf.config.custom_idea.getD (.obj [])
  -- line 101: f-string logging evaluates idea.get('slug', 'custom')
  match jget idea "slug" (.str "custom") with
  | .error e => (.error e, [])
  | .ok _ =>
    match env.chat with
    | .error e => (.error e, [.callChat])
    | .ok resp =>
      let script := scriptFor resp idea
      -- line 120: f-string logging evaluates script.get('title', 'Untitled')
      match jget script "title" (.str "Untitled") with
      | .error e => (.error e, [.callChat])
      | .ok _ =>
        match jget script "description" .null with
        | .error e => (.error e, [.callChat])
        | .ok _descr =>
          match env.create_video with
          | .error e => (.error e, [.callChat, .callCreateVideo])
          | .ok _taskId =>
            match wait_for_completion env.poll 600 10 with
            | .error ke => (.error (kieMsg ke), [.callChat, .callCreateVideo])
            | .ok pd =>
              match extract_video_url pd.resultJson with
              | .error e => (.error e, [.callChat, .callCreateVideo])
              | .ok url =>
                match env.upload_media with
                | .error e => (.error e, [.callChat, .callCreateVideo, .callUpload])
                | .ok _mediaUrl =>
                  let platforms :=
                    wf.config.platforms.getD ["tiktok", "instagram", "youtube"]
                  let posted_to := (execFanout env platforms).1
                  let postEvs := (execFanout env platforms).2
                  (.ok [("success", .vBool true),
                        ("workflow_id", .vNat wf.id),
                        ("workflow_name", .vStr wf.name),
                        ("video_url", .vJson url),
                        ("title", .vJson ((jget script "title" .null).toOption.getD .null)),
                        ("posted_to", .vStrList posted_to),
                        ("idea_slug", .vJson ((jget idea "slug" (.str "custom")).toOption.getD .null))],
                   [.callChat, .callCreateVideo, .callUpload] ++ postEvs)

/-- What `execute_workflow` produces: the returned dict and the events
(collaborator calls plus `wm.log_execution` writes). -/
structure ExecOut where
  result : List (String × PVal)
  events : List Event

/-- The placeholder result of `_execute_engagement` /
`_execute_analytics` / `_execute_custom`. -/
def placeholderResult (wf : Workflow) (msg : String) : List (String × PVal) :=
  [("success", .vBool true), ("workflow_id", .vNat wf.id), ("message", .vStr msg)]

/-- Truthiness of `result['success']` in the logging branch. -/
def resultSuccess (r : List (String × PVal)) : Bool :=
  match r.lookup "success" with
  | some (.vBool b) => b
  | _ => false

/-- `WorkflowExecutor.execute_workflow`: gate on existence and `'active'`
status, dispatch on the workflow type, log the execution, and catch any
exception into a structured failure. -/
def execute_workflow (env : ExecEnv) (wfLookup : Option Workflow) : ExecOut :=
  match wfLookup with
  | none => { result := [("success", .vBool false),
                         ("error", .vStr "Workflow not found")],
              events := [] }
  | some wf =>
    if wf.status ≠ "active" then
      { result := [("success", .vBool false),
                   ("error", .vStr ("Workflow is " ++ wf.status))],
        events := [] }
    else
      let dispatched : Except String (List (String × PVal)) × List Event :=
        if wf.type = "video_creation" then executeVideoCreation env wf
        else if wf.type = "engagement" then
          (.ok (placeholderResult wf "Engagement workflow (coming soon)"), [])
        else if wf.type = "analytics" then
          (.ok (placeholderResult wf "Analytics workflow (coming soon)"), [])
        else if wf.type = "custom" then
          (.ok (placeholderResult wf "Custom workflow executed"), [])
        else
          (.ok [("success", .vBool false),
                ("error", .vStr ("Unknown workflow type: " ++ wf.type))], [])
      match dispatched with
      | (.ok r, evs) =>
        if resultSuccess r then
          { result := r, events := evs ++ [.logExecution wf.id "success"] }
        else
          { result := r, events := evs ++ [.logExecution wf.id "failed"] }
      | (.error e, evs) =>
        { result := [("success", .vBool false), ("error", .vStr e),
                     ("trace", .vStr e)],
          events := evs ++ [.logExecution wf.id "failed"] }

/- ### Helper lemmas -/

theorem mem_lt_nextId {ids : List Nat} {x : Nat} (h : x ∈ ids) : x < nextId ids := by
  induction ids with
  | nil => cases h
  | cons a rest ih =>
    unfold nextId at ih ⊢
    rcases List.mem_cons.mp h with rfl | hm
    · simp only [List.foldr_cons]
      omega
    · have := ih hm
      simp only [List.foldr_cons]
      omega

/-- Rows whose ids are all distinct from `vid` are untouched by a map
that only modifies the row with id `vid`. -/
theorem map_untouched {vs : List VideoRow}
    {g : VideoRow → VideoRow} {vid : Nat} (h : ∀ r ∈ vs, r.id ≠ vid) :
    vs.map (fun r => if r.id = vid then g r else r) = vs := by
  induction vs with
  | nil => rfl
  | cons a rest ih =>
    simp only [List.map_cons]
    rw [if_neg (h a (List.mem_cons_self a rest)),
        ih (fun r hr => h r (List.mem_cons_of_mem a hr))]

theorem runs_map_untouched {rs : List RunRow}
    {g : RunRow → RunRow} {rid : Nat} (h : ∀ r ∈ rs, r.id ≠ rid) :
    rs.map (fun r => if r.id = rid then g r else r) = rs := by
  induction rs with
  | nil => rfl
  | cons a rest ih =>
    simp only [List.map_cons]
    rw [if_neg (h a (List.mem_cons_self a rest)),
        ih (fun r hr => h r (List.mem_cons_of_mem a hr))]

/-- Every row id of a video table is below the next AUTOINCREMENT id. -/
theorem video_ids_fresh (vs : List VideoRow) :
    ∀ r ∈ vs, r.id ≠ nextId (vs.map VideoRow.id) := by
  intro r hr
  exact Nat.ne_of_lt (mem_lt_nextId (List.mem_map_of_mem VideoRow.id hr))

theorem run_ids_fresh (rs : List RunRow) :
    ∀ r ∈ rs, r.id ≠ nextId (rs.map RunRow.id) := by
  intro r hr
  exact Nat.ne_of_lt (mem_lt_nextId (List.mem_map_of_mem RunRow.id hr))

/-- `update_video` on a table `vs ++ [row]` where `row.id = vid` and all
of `vs` is fresh touches only `row`. -/
theorem update_video_last {vs : List VideoRow} {row : VideoRow} {rs : List RunRow}
    {vid : Nat} (hfresh : ∀ r ∈ vs, r.id ≠ vid) (hrow : row.id = vid)
    (us : List VUpdate) :
    update_video ⟨vs ++ [row], rs⟩ vid us
      = ⟨vs ++ [us.foldl applyVUpdate row], rs⟩ := by
  unfold update_video
  simp only [List.map_append, List.map_cons, List.map_nil]
  rw [map_untouched hfresh]
  simp [hrow]

theorem complete_run_last {vs : List VideoRow} {rs : List RunRow} {row : RunRow}
    {rid : Nat} (hfresh : ∀ r ∈ rs, r.id ≠ rid) (hrow : row.id = rid)
    (status : String) (vid : Option Nat) (err : Option String) :
    complete_workflow_run ⟨vs, rs ++ [row]⟩ rid status vid err
      = ⟨vs, rs ++ [⟨row.id, true, status, vid, err⟩]⟩ := by
  unfold complete_workflow_run
  simp only [List.map_append, List.map_cons, List.map_nil]
  rw [runs_map_untouched hfresh]
  simp [hrow]

/- ### C7: round-robin rotation cycles the catalog exactly once -/

/-- `n` successive calls to `get_next_idea`, feeding back the index. -/
def rotationTrace : Nat → Nat → List Idea × Nat
  | 0, i => ([], i)
  | n + 1, i =>
    let (idea, i') := get_next_idea i
    let (rest, iF) := rotationTrace n i'
    (idea :: rest, iF)

/-- C7: for the catalog of N ideas, N successive `get_next_idea` calls
starting at index 0, each fed the previous returned index, produce every
catalog entry exactly once (in catalog order, and the entries are
pairwise distinct) and return the index to 0. -/
theorem claim_C7_rotation_cycles :
    rotationTrace IDEAS.length 0 = (IDEAS, 0) ∧ IDEAS.Nodup := by
  constructor
  · rfl
  · have hslugs : (IDEAS.map Idea.slug).Nodup := by decide
    exact hslugs.of_map Idea.slug

/- ### C3: the completion-polling protocol -/

/-- A poll outcome that is neither terminal nor an exception: the loop
sleeps and retries on it. -/
def pendingPoll (r : Except String PollData) : Prop :=
  ∃ pd, r = .ok pd ∧ pd.status ≠ "SUCCESS" ∧ pd.status ≠ "FAILED" ∧
    pd.status ≠ "ERROR"

theorem waitLoop_step (poll : Nat → Except String PollData) (f t k : Nat)
    (ht : t < 600) (hp : pendingPoll (poll k)) :
    waitLoop poll 600 10 (f + 1) t k = waitLoop poll 600 10 f (t + 10) (k + 1) := by
  obtain ⟨pd, hpd, h1, h2, h3⟩ := hp
  conv_lhs => rw [waitLoop]
  simp [ht, hpd, h1, h2, h3]

theorem waitLoop_skip (poll : Nat → Except String PollData) :
    ∀ k, k ≤ 60 → (∀ j < k, pendingPoll (poll j)) →
      wait_for_completion poll 600 10 = waitLoop poll 600 10 (601 - k) (10 * k) k := by
  intro k
  induction k with
  | zero => intro _ _; rfl
  | succ k ih =>
    intro hk hpend
    have h1 := ih (by omega) (fun j hj => hpend j (by omega))
    have ht : 10 * k < 600 := by omega
    have hff : 601 - k = (601 - (k + 1)) + 1 := by omega
    rw [h1, hff, waitLoop_step poll _ _ _ ht (hpend k (by omega))]
    have h10 : 10 * k + 10 = 10 * (k + 1) := by omega
    rw [h10]

/-- C3: for the default budget (600 time units, poll every 10): if the
first terminal poll within the budget reports SUCCESS the poll result is
returned; if it reports FAILED or ERROR the generation-failure error is
raised; if all 60 polls inside the budget are non-terminal the timeout
error is raised; and the two error kinds are distinct. -/
theorem claim_C3_completion_protocol :
    (∀ (poll : Nat → Except String PollData) k pd, k < 60 →
       (∀ j < k, pendingPoll (poll j)) → poll k = .ok pd →
       pd.status = "SUCCESS" → wait_for_completion poll 600 10 = .ok pd) ∧
    (∀ (poll : Nat → Except String PollData) k pd, k < 60 →
       (∀ j < k, pendingPoll (poll j)) → poll k = .ok pd →
       (pd.status = "FAILED" ∨ pd.status = "ERROR") →
       wait_for_completion poll 600 10 = .error (.genFailure pd)) ∧
    (∀ (poll : Nat → Except String PollData),
       (∀ j < 60, pendingPoll (poll j)) →
       wait_for_completion poll 600 10 = .error (.timeoutErr 600)) ∧
    (∀ pd m, KieError.genFailure pd ≠ KieError.timeoutErr m) := by
  refine ⟨?_, ?_, ?_, ?_⟩
  · intro poll k pd hk hpend hpoll hs
    rw [waitLoop_skip poll k (by omega) hpend]
    have ht : 10 * k < 600 := by omega
    have hf : 601 - k = (600 - k) + 1 := by omega
    rw [hf]
    unfold waitLoop
    simp [ht, hpoll, hs]
  · intro poll k pd hk hpend hpoll hs
    rw [waitLoop_skip poll k (by omega) hpend]
    have ht : 10 * k < 600 := by omega
    have hf : 601 - k = (600 - k) + 1 := by omega
    rw [hf]
    unfold waitLoop
    rcases hs with hs | hs <;> simp [ht, hpoll, hs]
  · intro poll hpend
    rw [waitLoop_skip poll 60 (by omega) hpend]
    unfold waitLoop
    simp
  · intro pd m h
    cases h

/-- Witness for C3: a run whose first poll is SUCCESS returns that poll
result; one whose first poll is FAILED raises the generation failure;
one that never turns terminal raises the timeout. -/
theorem claim_C3_completion_protocol_witness :
    wait_for_completion (fun _ => .ok ⟨"SUCCESS", .jstr "r"⟩) 600 10
        = .ok ⟨"SUCCESS", .jstr "r"⟩ ∧
    wait_for_completion (fun _ => .ok ⟨"FAILED", .jstr "r"⟩) 600 10
        = .error (.genFailure ⟨"FAILED", .jstr "r"⟩) ∧
    wait_for_completion (fun _ => .ok ⟨"WAITING", .jstr "r"⟩) 600 10
        = .error (.timeoutErr 600) := by
  refine ⟨?_, ?_, ?_⟩
  · exact claim_C3_completion_protocol.1 _ 0 _ (by omega)
      (fun j hj => absurd hj (by omega)) rfl rfl
  · exact claim_C3_completion_protocol.2.1 _ 0 _ (by omega)
      (fun j hj => absurd hj (by omega)) rfl (Or.inl rfl)
  · exact claim_C3_completion_protocol.2.2.1 _
      (fun j _ => ⟨⟨"WAITING", .jstr "r"⟩, rfl, by decide, by decide, by decide⟩)

/- ### C5: video-url extraction from the generation result -/

/-- C5: the extracted video url is the first element of the payload's
`resultUrls` list, whether `resultJson` arrives as an already-decoded
object or as a JSON-encoded string; in particular the concrete encoded
string of the spec yields `http://x/video.mp4`. -/
theorem claim_C5_result_url_extraction :
    extract_video_url (.jstr "\x7b\"resultUrls\":[\"http://x/video.mp4\"]\x7d")
        = .ok (.str "http://x/video.mp4") ∧
    (∀ (fs : List (String × Json)) (u : Json) (rest : List Json),
       jlookup fs "resultUrls" = some (.arr (u :: rest)) →
       extract_video_url (.jval (.obj fs)) = .ok u) ∧
    (∀ (s : String) (fs : List (String × Json)) (u : Json) (rest : List Json),
       jsonLoads s = some (.obj fs) →
       jlookup fs "resultUrls" = some (.arr (u :: rest)) →
       extract_video_url (.jstr s) = .ok u) := by
  refine ⟨rfl, ?_, ?_⟩
  · intro fs u rest hl
    simp [extract_video_url, resultUrlsFirst, hl, firstOf]
  · intro s fs u rest hs hl
    simp [extract_video_url, hs, resultUrlsFirst, hl, firstOf]

/-- Witness for C5: both general clauses applied to a concrete payload
carrying `resultUrls = ["http://x/video.mp4"]`. -/
theorem claim_C5_result_url_extraction_witness :
    extract_video_url (.jval (.obj [("resultUrls", .arr [.str "http://x/video.mp4"])]))
        = .ok (.str "http://x/video.mp4") ∧
    extract_video_url (.jstr "\x7b\"resultUrls\":[\"http://x/video.mp4\"]\x7d")
        = .ok (.str "http://x/video.mp4") :=
  ⟨claim_C5_result_url_extraction.2.1 _ _ [] rfl,
   claim_C5_result_url_extraction.2.2 "\x7b\"resultUrls\":[\"http://x/video.mp4\"]\x7d"
     [("resultUrls", .arr [.str "http://x/video.mp4"])] _ [] rfl rfl⟩

/- ### C10: execute_workflow gates on existence and active status -/

/-- C10: when the workflow is missing, or its stored status is not
`'active'`, `execute_workflow` returns a failure dict immediately and
produces no events at all — no collaborator call and no execution-log
write. -/
theorem claim_C10_inactive_gate :
    (∀ env : ExecEnv,
       execute_workflow env none
         = { result := [("success", .vBool false),
                        ("error", .vStr "Workflow not found")], events := [] }) ∧
    (∀ (env : ExecEnv) (wf : Workflow), wf.status ≠ "active" →
       execute_workflow env (some wf)
         = { result := [("success", .vBool false),
                        ("error", .vStr ("Workflow is " ++ wf.status))],
             events := [] }) := by
  constructor
  · intro env
    rfl
  · intro env wf h
    simp [execute_workflow, h]

/-- Witness for C10: a missing workflow and a concrete paused workflow
both return immediately with an empty event trace. -/
theorem claim_C10_inactive_gate_witness :
    (execute_workflow
        { chat := .ok "", create_video := .ok "", poll := fun _ => .ok ⟨"SUCCESS", .jstr ""⟩,
          upload_media := .ok "", create_post := fun _ => .ok () } none).events = [] ∧
    (execute_workflow
        { chat := .ok "", create_video := .ok "", poll := fun _ => .ok ⟨"SUCCESS", .jstr ""⟩,
          upload_media := .ok "", create_post := fun _ => .ok () }
        (some ⟨1, "w", "video_creation", ⟨none, none, none⟩, "paused"⟩)).events = [] := by
  constructor
  · rw [claim_C10_inactive_gate.1]
  · rw [claim_C10_inactive_gate.2 _ _ (by decide)]

/- ### C6: the idea-rotation index advances exactly once per run -/

/-- C6: every invocation of `run_workflow` (the workflow-run record is
always opened first) leaves the engine's idea index advanced by exactly
one position modulo the catalog size, whatever the downstream outcome. -/
theorem claim_C6_index_advances (env : EngineEnv) (db0 : DB) (idx : Nat) :
    (run_workflow env db0 idx).next_index = (idx + 1) % IDEAS.length := by
  rcases hg : env.generate_script with e | script
  · simp [run_workflow, hg, failRun, get_next_idea]
  rcases hc : env.create_video with e | tid
  · simp [run_workflow, hg, hc, failRun, get_next_idea]
  rcases hw : wait_for_completion env.poll 600 10 with ke | pd
  · simp [run_workflow, hg, hc, hw, failRun, get_next_idea]
  rcases hx : extract_video_url pd.resultJson with e | url
  · simp [run_workflow, hg, hc, hw, hx, failRun, get_next_idea]
  rcases hu : env.upload_media with e | mu
  · simp [run_workflow, hg, hc, hw, hx, hu, failRun, get_next_idea]
  simp [run_workflow, hg, hc, hw, hx, hu, get_next_idea]

/- ### C8: a first-poll FAILED status stops the run before upload/post -/

theorem wait_first_failed (poll : Nat → Except String PollData) (pd : PollData)
    (h : poll 0 = .ok pd) (hs : pd.status = "FAILED") :
    wait_for_completion poll 600 10 = .error (.genFailure pd) := by
  show waitLoop poll 600 10 (600 + 1) 0 0 = .error (.genFailure pd)
  rw [waitLoop]
  simp [h, hs]

/-- C8: in every run whose first poll reports status FAILED, no media
upload and no platform post attempt appears in the event trace. -/
theorem claim_C8_failed_poll_no_publish (env : EngineEnv) (db0 : DB) (idx : Nat)
    (pd : PollData) (h0 : env.poll 0 = .ok pd) (hs : pd.status = "FAILED") :
    Event.callUpload ∉ (run_workflow env db0 idx).events ∧
    ∀ p, Event.callPost p ∉ (run_workflow env db0 idx).events := by
  have hw : wait_for_completion env.poll 600 10 = .error (.genFailure pd) :=
    wait_first_failed env.poll pd h0 hs
  rcases hg : env.generate_script with e | script
  · refine ⟨?_, fun p => ?_⟩ <;> simp [run_workflow, hg, failRun]
  rcases hc : env.create_video with e | tid
  · refine ⟨?_, fun p => ?_⟩ <;> simp [run_workflow, hg, hc, failRun]
  refine ⟨?_, fun p => ?_⟩ <;> simp [run_workflow, hg, hc, hw, failRun, kieMsg]

/-- Witness for C8: a concrete run whose first poll is FAILED has
neither an upload event nor a YouTube post event. -/
theorem claim_C8_failed_poll_no_publish_witness :
    Event.callUpload ∉
      (run_workflow
        { generate_script := .ok ⟨"T", "D", "P", "#h"⟩, create_video := .ok "t1",
          poll := fun _ => .ok ⟨"FAILED", .jstr ""⟩, upload_media := .ok "m",
          create_post := fun _ => .ok () } ⟨[], []⟩ 0).events ∧
    Event.callPost "youtube" ∉
      (run_workflow
        { generate_script := .ok ⟨"T", "D", "P", "#h"⟩, create_video := .ok "t1",
          poll := fun _ => .ok ⟨"FAILED", .jstr ""⟩, upload_media := .ok "m",
          create_post := fun _ => .ok () } ⟨[], []⟩ 0).events :=
  ⟨(claim_C8_failed_poll_no_publish _ _ 0 ⟨"FAILED", .jstr ""⟩ rfl rfl).1,
   (claim_C8_failed_poll_no_publish _ _ 0 ⟨"FAILED", .jstr ""⟩ rfl rfl).2 "youtube"⟩

/- ### C2: VideoRecord status is monotonic, with a failed sink -/

/-- The allowed forward moves of the VideoRecord status machine:
one step along `created → generating → generated → completed`, or a
divert to `failed` from any non-terminal state. -/
def statusStep (a b : String) : Prop :=
  (a = "created" ∧ b = "generating") ∨
  (a = "generating" ∧ b = "generated") ∨
  (a = "generated" ∧ b = "completed") ∨
  ((a = "created" ∨ a = "generating" ∨ a = "generated") ∧ b = "failed")

/-- A status history that starts at `created` (if non-empty) and only
ever moves forward: it never reverts. -/
def monotoneStatuses (t : List String) : Prop :=
  List.Chain' statusStep t ∧ (t.head? = none ∨ t.head? = some "created")

theorem statusTrace_append (a b : List Event) (v : Nat) :
    statusTrace (a ++ b) v = statusTrace a v ++ statusTrace b v := by
  simp [statusTrace]

/-- A guarded platform post writes no status value. -/
theorem statusTrace_postPlatform (env : EngineEnv) (db : DB) (vid : Nat)
    (p : String) (flag : VUpdate) (hflag : statusOfUpdate flag = none)
    (evs : List Event) (v : Nat) :
    statusTrace (postPlatform env db vid p flag evs).2 v = statusTrace evs v := by
  unfold postPlatform
  rcases h : env.create_post p with e | u
  · simp [statusTrace, statusesOf]
  · simp [statusTrace, statusesOf, hflag]

/-- C2: over any run, the sequence of status values any video record
takes is monotonic along `created → generating → generated → completed`
with `failed` reachable only from the non-terminal states: each
consecutive pair of writes is an allowed forward step and the history
starts at `created`.  -/
theorem claim_C2_status_monotone (env : EngineEnv) (db0 : DB) (idx : Nat) (v : Nat) :
    monotoneStatuses (statusTrace (run_workflow env db0 idx).events v) := by
  rcases hg : env.generate_script with e | script
  · simp [monotoneStatuses, run_workflow, hg, failRun, statusTrace, statusesOf]
  rcases hc : env.create_video with e | tid
  · simp [monotoneStatuses, run_workflow, hg, hc, failRun, statusTrace,
      statusesOf, statusOfUpdate]
    split <;> simp_all [statusStep]
  rcases hw : wait_for_completion env.poll 600 10 with ke | pd
  · simp [monotoneStatuses, run_workflow, hg, hc, hw, failRun, statusTrace,
      statusesOf, statusOfUpdate]
    split <;> simp_all [statusStep]
  rcases hx : extract_video_url pd.resultJson with e | url
  · simp [monotoneStatuses, run_workflow, hg, hc, hw, hx, failRun, statusTrace,
      statusesOf, statusOfUpdate]
    split <;> simp_all [statusStep]
  rcases hu : env.upload_media with e | mu
  · simp [monotoneStatuses, run_workflow, hg, hc, hw, hx, hu, failRun,
      statusTrace, statusesOf, statusOfUpdate]
    split <;> simp_all [statusStep]
  · simp only [monotoneStatuses, run_workflow, hg, hc, hw, hx, hu]
    rw [statusTrace_append, statusTrace_postPlatform env _ _ _ _ (by rfl) _ v,
        statusTrace_postPlatform env _ _ _ _ (by rfl) _ v,
        statusTrace_postPlatform env _ _ _ _ (by rfl) _ v]
    simp [statusTrace, statusesOf, statusOfUpdate]
    split <;> simp_all [statusStep]

/- ### C4: script-generation failure aborts the run -/

theorem add_workflow_run_fst (db0 : DB) :
    (add_workflow_run db0).1
      = ⟨db0.videos, db0.runs ++ [⟨nextId (db0.runs.map RunRow.id), false,
          "started", none, none⟩]⟩ := rfl

theorem add_workflow_run_snd (db0 : DB) :
    (add_workflow_run db0).2 = nextId (db0.runs.map RunRow.id) := rfl

/-- Closing the freshly opened run row rewrites just that row. -/
theorem runs_after_complete (db0 : DB) (vs : List VideoRow)
    (st : String) (vid : Option Nat) (err : Option String) :
    complete_workflow_run
        ⟨vs, db0.runs ++ [⟨nextId (db0.runs.map RunRow.id), false, "started",
          none, none⟩]⟩
        (nextId (db0.runs.map RunRow.id)) st vid err
      = ⟨vs, db0.runs ++ [⟨nextId (db0.runs.map RunRow.id), true, st, vid, err⟩]⟩ :=
  complete_run_last (run_ids_fresh db0.runs) rfl st vid err

/-- C4 (amended): in `WorkflowEngine.run_workflow`, a script-generation
failure (the call raises: malformed response, network error or non-JSON
content) aborts the run with zero video rows created, exactly one
workflow-run row appended — closed as `failed` with the error recorded —
and a failure dict returned. -/
theorem claim_C4_script_failure_aborts (env : EngineEnv) (db0 : DB) (idx : Nat)
    (e : String) (h : env.generate_script = .error e) :
    (run_workflow env db0 idx).db.videos = db0.videos ∧
    (run_workflow env db0 idx).db.runs
      = db0.runs ++ [⟨nextId (db0.runs.map RunRow.id), true, "failed",
          none, some e⟩] ∧
    (run_workflow env db0 idx).result
      = [("success", .vBool false), ("error", .vStr e), ("trace", .vStr e)] := by
  simp only [run_workflow, h, failRun, add_workflow_run_fst, add_workflow_run_snd,
    runs_after_complete]
  simp

/-- Witness for C4's amended theorem at a concrete failing environment. -/
theorem claim_C4_script_failure_aborts_witness :
    (run_workflow
      { generate_script := .error "boom", create_video := .ok "t",
        poll := fun _ => .ok ⟨"SUCCESS", .jstr ""⟩, upload_media := .ok "m",
        create_post := fun _ => .ok () } ⟨[], []⟩ 0).db.videos = [] ∧
    (run_workflow
      { generate_script := .error "boom", create_video := .ok "t",
        poll := fun _ => .ok ⟨"SUCCESS", .jstr ""⟩, upload_media := .ok "m",
        create_post := fun _ => .ok () } ⟨[], []⟩ 0).db.runs
      = [⟨1, true, "failed", none, some "boom"⟩] :=
  ⟨(claim_C4_script_failure_aborts _ ⟨[], []⟩ 0 "boom" rfl).1,
   (claim_C4_script_failure_aborts _ ⟨[], []⟩ 0 "boom" rfl).2.1⟩

/-- C4 (counterexample): in `WorkflowExecutor`, non-JSON script content
does not abort the run.  With a chat response that is not JSON and all
later calls succeeding, the run is logged `success` and returns a
success dict — contradicting the claim that every run whose script
generation yields non-JSON content fails. -/
theorem claim_C4_counterexample :
    jsonLoads "this is not JSON" = none ∧
    resultSuccess (execute_workflow
      { chat := .ok "this is not JSON", create_video := .ok "t1",
        poll := fun _ => .ok ⟨"SUCCESS",
          .jval (.obj [("resultUrls", .arr [.str "http://x/v.mp4"])])⟩,
        upload_media := .ok "m", create_post := fun _ => .ok () }
      (some ⟨1, "wf", "video_creation", ⟨some "default", none, none⟩,
        "active"⟩)).result = true ∧
    (execute_workflow
      { chat := .ok "this is not JSON", create_video := .ok "t1",
        poll := fun _ => .ok ⟨"SUCCESS",
          .jval (.obj [("resultUrls", .arr [.str "http://x/v.mp4"])])⟩,
        upload_media := .ok "m", create_post := fun _ => .ok () }
      (some ⟨1, "wf", "video_creation", ⟨some "default", none, none⟩,
        "active"⟩)).events
      = [.callChat, .callCreateVideo, .callUpload, .callPost "tiktok",
         .callPost "instagram", .callPost "youtube",
         .logExecution 1 "success"] :=
  ⟨rfl, rfl, rfl⟩

/- ### C9: the WorkflowRun is opened as `started` but its id is not
returned -/

theorem update_video_runs (db : DB) (vid : Nat) (us : List VUpdate) :
    (update_video db vid us).runs = db.runs := rfl

theorem add_video_fst_runs (db : DB) (i : Idea) (sc : Script) :
    (add_video db i sc).1.runs = db.runs := rfl

theorem add_video_snd (db : DB) (i : Idea) (sc : Script) :
    (add_video db i sc).2 = nextId (db.videos.map VideoRow.id) := rfl

theorem add_workflow_run_runs (db0 : DB) :
    (add_workflow_run db0).1.runs
      = db0.runs ++ [⟨nextId (db0.runs.map RunRow.id), false, "started",
          none, none⟩] := rfl

theorem postPlatform_fst_runs (env : EngineEnv) (db : DB) (vid : Nat)
    (p : String) (flag : VUpdate) (evs : List Event) :
    (postPlatform env db vid p flag evs).1.runs = db.runs := by
  unfold postPlatform
  rcases h : env.create_post p with e | u <;> simp [update_video_runs]

theorem postPlatform_snd_ne_nil (env : EngineEnv) (db : DB) (vid : Nat)
    (p : String) (flag : VUpdate) (evs : List Event) :
    (postPlatform env db vid p flag evs).2 ≠ [] := by
  unfold postPlatform
  rcases h : env.create_post p with e | u <;> simp

theorem postPlatform_snd_head (env : EngineEnv) (db : DB) (vid : Nat)
    (p : String) (flag : VUpdate) (evs : List Event) (h : evs ≠ []) :
    ((postPlatform env db vid p flag evs).2).head? = evs.head? := by
  unfold postPlatform
  rcases hc : env.create_post p with e | u <;>
    simp [List.head?_append_of_ne_nil _ h]

/-- The `runs` projection of `complete_workflow_run`, as a map. -/
theorem complete_runs_map (db : DB) (rid : Nat) (st : String)
    (vid : Option Nat) (err : Option String) :
    (complete_workflow_run db rid st vid err).runs
      = db.runs.map (fun r =>
          if r.id = rid then ⟨r.id, true, st, vid, err⟩ else r) := rfl

/-- Closing the freshly opened run row, seen through the `runs`
projection of whatever video updates happened in between. -/
theorem runs_of_complete_fresh (db0 : DB) (db : DB)
    (h : db.runs = db0.runs ++ [⟨nextId (db0.runs.map RunRow.id), false,
      "started", none, none⟩])
    (st : String) (vid : Option Nat) (err : Option String) :
    (complete_workflow_run db (nextId (db0.runs.map RunRow.id)) st vid err).runs
      = db0.runs ++ [⟨nextId (db0.runs.map RunRow.id), true, st, vid, err⟩] := by
  unfold complete_workflow_run
  simp only [h, List.map_append, List.map_cons, List.map_nil]
  rw [runs_map_untouched (run_ids_fresh db0.runs)]
  simp

/-- C9 (amended): every invocation of `run_workflow` first opens a
workflow-run row with status `started`; on both outcomes that same row
is closed with a terminal status; but the returned dict never carries
the run id — its keys are exactly success/video_id/video_url/title on
success and success/error/trace on failure. -/
theorem claim_C9_run_record_lifecycle (env : EngineEnv) (db0 : DB) (idx : Nat) :
    ((run_workflow env db0 idx).events.head?
       = some (.dbAddRun (nextId (db0.runs.map RunRow.id)) "started")) ∧
    ((run_workflow env db0 idx).db.runs
       = db0.runs ++ [⟨nextId (db0.runs.map RunRow.id), true, "completed",
           some (nextId (db0.videos.map VideoRow.id)), none⟩] ∨
     ∃ e vid, (run_workflow env db0 idx).db.runs
       = db0.runs ++ [⟨nextId (db0.runs.map RunRow.id), true, "failed", vid,
           some e⟩]) ∧
    ((run_workflow env db0 idx).result.map Prod.fst
       = ["success", "video_id", "video_url", "title"] ∨
     (run_workflow env db0 idx).result.map Prod.fst
       = ["success", "error", "trace"]) := by
  rcases hg : env.generate_script with e | script
  · refine ⟨?_, Or.inr ⟨e, none, ?_⟩, Or.inr ?_⟩ <;>
      simp [run_workflow, hg, failRun, add_workflow_run_snd, complete_runs_map,
        update_video_runs, add_video_fst_runs, add_workflow_run_runs] <;>
      rw [runs_map_untouched (run_ids_fresh db0.runs)]
  rcases hc : env.create_video with e | tid
  · refine ⟨?_, Or.inr ⟨e, some (nextId (db0.videos.map VideoRow.id)), ?_⟩,
      Or.inr ?_⟩ <;>
      simp [run_workflow, hg, hc, failRun, add_workflow_run_snd, add_video_snd,
        add_workflow_run_fst, complete_runs_map, update_video_runs,
        add_video_fst_runs, add_workflow_run_runs] <;>
      rw [runs_map_untouched (run_ids_fresh db0.runs)]
  rcases hw : wait_for_completion env.poll 600 10 with ke | pd
  · refine ⟨?_, Or.inr ⟨kieMsg ke, some (nextId (db0.videos.map VideoRow.id)), ?_⟩,
      Or.inr ?_⟩ <;>
      simp [run_workflow, hg, hc, hw, failRun, add_workflow_run_snd, add_video_snd,
        add_workflow_run_fst, complete_runs_map, update_video_runs,
        add_video_fst_runs, add_workflow_run_runs] <;>
      rw [runs_map_untouched (run_ids_fresh db0.runs)]
  rcases hx : extract_video_url pd.resultJson with e | url
  · refine ⟨?_, Or.inr ⟨e, some (nextId (db0.videos.map VideoRow.id)), ?_⟩,
      Or.inr ?_⟩ <;>
      simp [run_workflow, hg, hc, hw, hx, failRun, add_workflow_run_snd,
        add_video_snd, add_workflow_run_fst, complete_runs_map, update_video_runs,
        add_video_fst_runs, add_workflow_run_runs] <;>
      rw [runs_map_untouched (run_ids_fresh db0.runs)]
  rcases hu : env.upload_media with e | mu
  · refine ⟨?_, Or.inr ⟨e, some (nextId (db0.videos.map VideoRow.id)), ?_⟩,
      Or.inr ?_⟩ <;>
      simp [run_workflow, hg, hc, hw, hx, hu, failRun, add_workflow_run_snd,
        add_video_snd, add_workflow_run_fst, complete_runs_map, update_video_runs,
        add_video_fst_runs, add_workflow_run_runs] <;>
      rw [runs_map_untouched (run_ids_fresh db0.runs)]
  · refine ⟨?_, Or.inl ?_, Or.inl ?_⟩
    · simp only [run_workflow, hg, hc, hw, hx, hu, add_workflow_run_snd,
        add_workflow_run_fst, add_video_snd]
      rw [List.head?_append_of_ne_nil _ (postPlatform_snd_ne_nil _ _ _ _ _ _),
        postPlatform_snd_head _ _ _ _ _ _ (postPlatform_snd_ne_nil _ _ _ _ _ _),
        postPlatform_snd_head _ _ _ _ _ _ (postPlatform_snd_ne_nil _ _ _ _ _ _),
        postPlatform_snd_head _ _ _ _ _ _ (by simp)]
      simp
    · simp [run_workflow, hg, hc, hw, hx, hu, add_workflow_run_snd, add_video_snd,
        add_workflow_run_fst, complete_runs_map, update_video_runs,
        add_video_fst_runs, add_workflow_run_runs, postPlatform_fst_runs]
      rw [runs_map_untouched (run_ids_fresh db0.runs)]
    · simp [run_workflow, hg, hc, hw, hx, hu]

/-- C9 (counterexample): a concrete fully successful run opens
WorkflowRun id 7 (one run row with id 6 pre-exists), yet the value
`run_workflow` returns is exactly the success dict
success/video_id/video_url/title — no key of the returned dict holds
the run id 7, on this success outcome. -/
theorem claim_C9_counterexample :
    (run_workflow
        { generate_script := .ok ⟨"T", "D", "P", "#h"⟩, create_video := .ok "task1",
          poll := fun _ => .ok ⟨"SUCCESS",
            .jval (.obj [("resultUrls", .arr [.str "u"])])⟩,
          upload_media := .ok "m", create_post := fun _ => .ok () }
        ⟨[], [⟨6, true, "completed", none, none⟩]⟩ 0).db.runs.map RunRow.id
      = [6, 7] ∧
    (run_workflow
        { generate_script := .ok ⟨"T", "D", "P", "#h"⟩, create_video := .ok "task1",
          poll := fun _ => .ok ⟨"SUCCESS",
            .jval (.obj [("resultUrls", .arr [.str "u"])])⟩,
          upload_media := .ok "m", create_post := fun _ => .ok () }
        ⟨[], [⟨6, true, "completed", none, none⟩]⟩ 0).result
      = [("success", .vBool true), ("video_id", .vNat 1),
         ("video_url", .vJson (.str "u")), ("title", .vStr "T")] ∧
    ¬ ∃ k, (k, PVal.vNat 7) ∈
      (run_workflow
        { generate_script := .ok ⟨"T", "D", "P", "#h"⟩, create_video := .ok "task1",
          poll := fun _ => .ok ⟨"SUCCESS",
            .jval (.obj [("resultUrls", .arr [.str "u"])])⟩,
          upload_media := .ok "m", create_post := fun _ => .ok () }
        ⟨[], [⟨6, true, "completed", none, none⟩]⟩ 0).result := by
  refine ⟨rfl, rfl, ?_⟩
  rintro ⟨k, hk⟩
  have hres :
      (run_workflow
        { generate_script := .ok ⟨"T", "D", "P", "#h"⟩, create_video := .ok "task1",
          poll := fun _ => .ok ⟨"SUCCESS",
            .jval (.obj [("resultUrls", .arr [.str "u"])])⟩,
          upload_media := .ok "m", create_post := fun _ => .ok () }
        ⟨[], [⟨6, true, "completed", none, none⟩]⟩ 0).result
      = [("success", .vBool true), ("video_id", .vNat 1),
         ("video_url", .vJson (.str "u")), ("title", .vStr "T")] := rfl
  rw [hres] at hk
  simp [Prod.ext_iff] at hk

/- ### C1: a per-platform post failure never fails the run -/

/-- The fixed platform order of `run_workflow` (YouTube, Instagram,
TikTok) — also the only platform names the executor's fan-out posts to. -/
def enginePlatforms : List String := ["youtube", "instagram", "tiktok"]

/-- The per-platform posted flag of a video row. -/
def platformFlag (p : String) (r : VideoRow) : Bool :=
  if p = "youtube" then r.posted_youtube
  else if p = "instagram" then r.posted_instagram
  else if p = "tiktok" then r.posted_tiktok
  else false

theorem add_video_fst (db : DB) (i : Idea) (sc : Script) :
    (add_video db i sc).1
      = ⟨db.videos ++ [⟨nextId (db.videos.map VideoRow.id), i, some sc, none,
          none, "created", false, false, false, none⟩], db.runs⟩ := rfl

/-- Engine half of C1: when the run reaches the posting stage and
exactly one platform's post raises while the others succeed, the run
still returns success, the failed platform's posted flag stays false,
the others are set, and both the video row and the run row close as
`completed`. -/
theorem run_workflow_partial_platform_failure (env : EngineEnv) (db0 : DB)
    (idx : Nat) (script : Script) (tid : String) (pd : PollData) (url : Json)
    (mu : String) (fp efp : String)
    (hg : env.generate_script = .ok script)
    (hc : env.create_video = .ok tid)
    (hw : wait_for_completion env.poll 600 10 = .ok pd)
    (hx : extract_video_url pd.resultJson = .ok url)
    (hu : env.upload_media = .ok mu)
    (hfp : fp ∈ enginePlatforms)
    (hfail : env.create_post fp = .error efp)
    (hok : ∀ p ∈ enginePlatforms, p ≠ fp → env.create_post p = .ok ()) :
    (run_workflow env db0 idx).result.lookup "success" = some (.vBool true) ∧
    ∃ row rrow,
      (run_workflow env db0 idx).db = ⟨db0.videos ++ [row], db0.runs ++ [rrow]⟩ ∧
      row.status = "completed" ∧
      platformFlag fp row = false ∧
      (∀ p ∈ enginePlatforms, p ≠ fp → platformFlag p row = true) ∧
      rrow.status = "completed" := by
  rcases (by simpa [enginePlatforms] using hfp :
      fp = "youtube" ∨ fp = "instagram" ∨ fp = "tiktok") with rfl | rfl | rfl
  · have hI := hok "instagram" (by simp [enginePlatforms]) (by decide)
    have hT := hok "tiktok" (by simp [enginePlatforms]) (by decide)
    constructor
    · simp [run_workflow, hg, hc, hw, hx, hu, postPlatform, hfail, hI, hT]
    · simp only [run_workflow, hg, hc, hw, hx, hu, postPlatform, hfail, hI, hT,
        add_workflow_run_fst, add_workflow_run_snd, add_video_fst, add_video_snd]
      rw [update_video_last (video_ids_fresh db0.videos) rfl,
        update_video_last (video_ids_fresh db0.videos) rfl,
        update_video_last (video_ids_fresh db0.videos) rfl,
        update_video_last (video_ids_fresh db0.videos) rfl,
        update_video_last (video_ids_fresh db0.videos) rfl,
        complete_run_last (run_ids_fresh db0.runs) rfl]
      refine ⟨_, _, rfl, rfl, rfl, ?_, rfl⟩
      intro p hp hne
      rcases (by simpa [enginePlatforms] using hp :
          p = "youtube" ∨ p = "instagram" ∨ p = "tiktok") with rfl | rfl | rfl
      · exact absurd rfl hne
      · rfl
      · rfl
  · have hY := hok "youtube" (by simp [enginePlatforms]) (by decide)
    have hT := hok "tiktok" (by simp [enginePlatforms]) (by decide)
    constructor
    · simp [run_workflow, hg, hc, hw, hx, hu, postPlatform, hfail, hY, hT]
    · simp only [run_workflow, hg, hc, hw, hx, hu, postPlatform, hfail, hY, hT,
        add_workflow_run_fst, add_workflow_run_snd, add_video_fst, add_video_snd]
      rw [update_video_last (video_ids_fresh db0.videos) rfl,
        update_video_last (video_ids_fresh db0.videos) rfl,
        update_video_last (video_ids_fresh db0.videos) rfl,
        update_video_last (video_ids_fresh db0.videos) rfl,
        update_video_last (video_ids_fresh db0.videos) rfl,
        complete_run_last (run_ids_fresh db0.runs) rfl]
      refine ⟨_, _, rfl, rfl, rfl, ?_, rfl⟩
      intro p hp hne
      rcases (by simpa [enginePlatforms] using hp :
          p = "youtube" ∨ p = "instagram" ∨ p = "tiktok") with rfl | rfl | rfl
      · rfl
      · exact absurd rfl hne
      · rfl
  · have hY := hok "youtube" (by simp [enginePlatforms]) (by decide)
    have hI := hok "instagram" (by simp [enginePlatforms]) (by decide)
    constructor
    · simp [run_workflow, hg, hc, hw, hx, hu, postPlatform, hfail, hY, hI]
    · simp only [run_workflow, hg, hc, hw, hx, hu, postPlatform, hfail, hY, hI,
        add_workflow_run_fst, add_workflow_run_snd, add_video_fst, add_video_snd]
      rw [update_video_last (video_ids_fresh db0.videos) rfl,
        update_video_last (video_ids_fresh db0.videos) rfl,
        update_video_last (video_ids_fresh db0.videos) rfl,
        update_video_last (video_ids_fresh db0.videos) rfl,
        update_video_last (video_ids_fresh db0.videos) rfl,
        complete_run_last (run_ids_fresh db0.runs) rfl]
      refine ⟨_, _, rfl, rfl, rfl, ?_, rfl⟩
      intro p hp hne
      rcases (by simpa [enginePlatforms] using hp :
          p = "youtube" ∨ p = "instagram" ∨ p = "tiktok") with rfl | rfl | rfl
      · rfl
      · rfl
      · exact absurd rfl hne

/-- The executor's fan-out keeps exactly the platforms whose post did
not raise (in configuration order), when all configured platforms are
recognised names. -/
theorem execFanout_filter (env : ExecEnv) (fp : String) (efp : String)
    (hfail : env.create_post fp = .error efp) :
    ∀ platforms : List String,
      (∀ p ∈ platforms, p = "youtube" ∨ p = "instagram" ∨ p = "tiktok") →
      (∀ p ∈ platforms, p ≠ fp → env.create_post p = .ok ()) →
      (execFanout env platforms).1 = platforms.filter (fun p => decide (p ≠ fp)) := by
  intro platforms
  induction platforms with
  | nil => intro _ _; rfl
  | cons p ps ih =>
    intro hknown hok2
    have hk := hknown p (List.mem_cons_self p ps)
    have ihx := ih (fun q hq => hknown q (List.mem_cons_of_mem p hq))
      (fun q hq hne => hok2 q (List.mem_cons_of_mem p hq) hne)
    by_cases hp : p = fp
    · subst hp
      unfold execFanout
      rw [if_pos hk, hfail]
      simp [ihx]
    · have hpo := hok2 p (List.mem_cons_self p ps) hp
      unfold execFanout
      rw [if_pos hk, hpo]
      simp [ihx, hp]

/-- Executor half of C1: same posting scenario through
`execute_workflow`; the run succeeds and `posted_to` lists exactly the
platforms whose post succeeded, in configuration order. -/
theorem execute_workflow_partial_platform_failure (env : ExecEnv)
    (wf : Workflow) (resp tid : String) (pd : PollData) (url : Json)
    (mu : String) (fp efp : String) (platforms : List String)
    (fs : List (String × Json))
    (hst : wf.status = "active") (hty : wf.type = "video_creation")
    (hib : wf.config.idea_bank = some "default")
    (hpl : wf.config.platforms = some platforms)
    (hknown : ∀ p ∈ platforms, p = "youtube" ∨ p = "instagram" ∨ p = "tiktok")
    (hchat : env.chat = .ok resp)
    (hscript : scriptFor resp (ideaJson (get_next_idea 0).1) = .obj fs)
    (hcv : env.create_video = .ok tid)
    (hw : wait_for_completion env.poll 600 10 = .ok pd)
    (hx : extract_video_url pd.resultJson = .ok url)
    (hu : env.upload_media = .ok mu)
    (hfp : fp ∈ platforms)
    (hfail : env.create_post fp = .error efp)
    (hok : ∀ p ∈ platforms, p ≠ fp → env.create_post p = .ok ()) :
    resultSuccess (execute_workflow env (some wf)).result = true ∧
    (execute_workflow env (some wf)).result.lookup "posted_to"
      = some (.vStrList (platforms.filter (fun p => decide (p ≠ fp)))) := by
  have hfan := execFanout_filter env fp efp hfail platforms hknown hok
  have hslug : ∀ d : Json, jget (ideaJson (get_next_idea 0).1) "slug" d
      = .ok (.str (get_next_idea 0).1.slug) := fun d => rfl
  constructor <;>
    simp [execute_workflow, executeVideoCreation, hst, hty, hib, hpl, hchat,
      hscript, hcv, hw, hx, hu, hfan, hslug, jget, resultSuccess, List.lookup]

/-- C1: in every run that reaches the posting stage (upload succeeded)
where one configured platform's post raises and the others succeed, the
run still returns success; the executor's returned `posted_to` lists
exactly the platforms whose post succeeded, in configuration order; the
failed platform's posted flag on the video record remains false while
the others are set; and the workflow run closes with status
`completed`. -/
theorem claim_C1_platform_failure_not_fatal :
    (∀ (env : EngineEnv) (db0 : DB) (idx : Nat) (script : Script)
       (tid : String) (pd : PollData) (url : Json) (mu : String)
       (fp efp : String),
       env.generate_script = .ok script →
       env.create_video = .ok tid →
       wait_for_completion env.poll 600 10 = .ok pd →
       extract_video_url pd.resultJson = .ok url →
       env.upload_media = .ok mu →
       fp ∈ enginePlatforms →
       env.create_post fp = .error efp →
       (∀ p ∈ enginePlatforms, p ≠ fp → env.create_post p = .ok ()) →
       (run_workflow env db0 idx).result.lookup "success"
           = some (.vBool true) ∧
       ∃ row rrow,
         (run_workflow env db0 idx).db
             = ⟨db0.videos ++ [row], db0.runs ++ [rrow]⟩ ∧
         row.status = "completed" ∧
         platformFlag fp row = false ∧
         (∀ p ∈ enginePlatforms, p ≠ fp → platformFlag p row = true) ∧
         rrow.status = "completed") ∧
    (∀ (env : ExecEnv) (wf : Workflow) (resp tid : String) (pd : PollData)
       (url : Json) (mu : String) (fp efp : String)
       (platforms : List String) (fs : List (String × Json)),
       wf.status = "active" → wf.type = "video_creation" →
       wf.config.idea_bank = some "default" →
       wf.config.platforms = some platforms →
       (∀ p ∈ platforms, p = "youtube" ∨ p = "instagram" ∨ p = "tiktok") →
       env.chat = .ok resp →
       scriptFor resp (ideaJson (get_next_idea 0).1) = .obj fs →
       env.create_video = .ok tid →
       wait_for_completion env.poll 600 10 = .ok pd →
       extract_video_url pd.resultJson = .ok url →
       env.upload_media = .ok mu →
       fp ∈ platforms →
       env.create_post fp = .error efp →
       (∀ p ∈ platforms, p ≠ fp → env.create_post p = .ok ()) →
       resultSuccess (execute_workflow env (some wf)).result = true ∧
       (execute_workflow env (some wf)).result.lookup "posted_to"
         = some (.vStrList (platforms.filter (fun p => decide (p ≠ fp))))) :=
  ⟨fun env db0 idx script tid pd url mu fp efp hg hc hw hx hu hfp hfail hok =>
     run_workflow_partial_platform_failure env db0 idx script tid pd url mu
       fp efp hg hc hw hx hu hfp hfail hok,
   fun env wf resp tid pd url mu fp efp platforms fs hst hty hib hpl hknown
       hchat hscript hcv hw hx hu hfp hfail hok =>
     execute_workflow_partial_platform_failure env wf resp tid pd url mu fp efp
       platforms fs hst hty hib hpl hknown hchat hscript hcv hw hx hu hfp
       hfail hok⟩

/-- A concrete engine environment for the C1 witness: Instagram's post
raises, YouTube's and TikTok's succeed, everything earlier succeeds. -/
def envC1E : EngineEnv :=
  { generate_script := .ok ⟨"T", "D", "P", "#h"⟩, create_video := .ok "task1",
    poll := fun _ => .ok ⟨"SUCCESS", .jval (.obj [("resultUrls", .arr [.str "u"])])⟩,
    upload_media := .ok "m",
    create_post := fun p => if p = "instagram" then .error "boom" else .ok () }

/-- A concrete executor environment and workflow for the C1 witness. -/
def envC1X : ExecEnv :=
  { chat := .ok "free text script", create_video := .ok "task1",
    poll := fun _ => .ok ⟨"SUCCESS", .jval (.obj [("resultUrls", .arr [.str "u"])])⟩,
    upload_media := .ok "m",
    create_post := fun p => if p = "instagram" then .error "boom" else .ok () }

def wfC1 : Workflow :=
  ⟨1, "wf", "video_creation",
   ⟨some "default", none, some ["youtube", "instagram", "tiktok"]⟩, "active"⟩

set_option maxRecDepth 8000 in
/-- Witness for C1 at the concrete environments: the engine run returns
success, and the executor returns success with
`posted_to = ["youtube", "tiktok"]`. -/
theorem claim_C1_platform_failure_not_fatal_witness :
    (run_workflow envC1E ⟨[], []⟩ 0).result.lookup "success"
        = some (.vBool true) ∧
    resultSuccess (execute_workflow envC1X (some wfC1)).result = true ∧
    (execute_workflow envC1X (some wfC1)).result.lookup "posted_to"
        = some (.vStrList ["youtube", "tiktok"]) := by
  refine ⟨(claim_C1_platform_failure_not_fatal.1 envC1E ⟨[], []⟩ 0
      ⟨"T", "D", "P", "#h"⟩ "task1"
      ⟨"SUCCESS", .jval (.obj [("resultUrls", .arr [.str "u"])])⟩ (.str "u") "m"
      "instagram" "boom" rfl rfl rfl rfl rfl (by decide) rfl ?hokE).1, ?_, ?_⟩
  case hokE =>
    intro p hp hne
    rcases (by simpa [enginePlatforms] using hp :
        p = "youtube" ∨ p = "instagram" ∨ p = "tiktok") with rfl | rfl | rfl
    · rfl
    · exact absurd rfl hne
    · rfl
  all_goals
    have h := claim_C1_platform_failure_not_fatal.2 envC1X wfC1
      "free text script" "task1"
      ⟨"SUCCESS", .jval (.obj [("resultUrls", .arr [.str "u"])])⟩ (.str "u") "m"
      "instagram" "boom" ["youtube", "instagram", "tiktok"]
      [("title", .str "Video about baby-goat-happy-hops"),
       ("description", .str "free text script"),
       ("prompt", .str "free text script"),
       ("hashtags", .str "#cute #viral #pets")]
      rfl rfl rfl rfl (by decide) rfl rfl rfl rfl rfl rfl (by decide) rfl
      (by intro p hp hne
          rcases (by simpa using hp :
              p = "youtube" ∨ p = "instagram" ∨ p = "tiktok") with rfl | rfl | rfl
          · rfl
          · exact absurd rfl hne
          · rfl)
  · exact h.1
  · simpa using h.2
